/-
Verification of the motifstudio execution core against its specification.

The definitions below are a shallow embedding of the Python source:

* `run_with_limits`, `workerQueue`      — server/src/server/commons.py
* `HostProviderRouterGlobalDep` state   — server/src/server/commons.py
* `HostProviderRouter.provider_for`     — server/src/host_provider/router.py
* `MotifAggregation.*`                  — server/src/aggregators/__init__.py
* sample / vertex-count aggregators     — server/src/aggregators/*.py,
                                          src/aggregators/vertex_count.py
* `NetworkXHostProvider.get_motifs`     — src/host_provider/host_provider/host_provider.py
* query endpoint handlers               — server/src/server/routers/queries.py

Machine behaviour that Python leaves to the OS (whether the worker process is
still alive when `proc.join(timeout)` returns, whether the worker was killed
before it could `queue.put` a report) is represented by explicit boolean
observations; the randomness consumed by `random.sample` is represented by an
explicit permutation of the population.
-/
import Mathlib

namespace Motifstudio

/-! ## Resource-limited executor (server/src/server/commons.py)

`_run_with_limits_target` runs `func(*args, **kwargs)` in a fresh process and
puts `(True, result)` on the queue on normal return, `(False, e)` on an
exception.  The parent joins the process for `timeout_seconds`; if the process
is still alive it raises `TimeoutError`; else if the queue is empty it raises
`MemoryError`; else it returns the payload on a `True` flag and re-raises the
payload on a `False` flag.

We model the function's own behaviour as `Except E V` (`.ok v` ~ it returns
`v`, `.error e` ~ it raises `e`), the queue contents as
`Option (Except E V)` (`none` ~ empty queue), and the OS-level observations as
two booleans. -/

/-- The four ways an invocation of `run_with_limits` can end, as seen by its
caller: return the payload, re-raise the function's exception, raise
`TimeoutError`, raise `MemoryError`. -/
inductive RunOutcome (E V : Type) where
  | success (v : V)
  | failed (e : E)
  | timedOut
  | resourceExhausted
  deriving DecidableEq, Repr

/-- What `_run_with_limits_target` leaves on the queue: `none` when the worker
dies (OS kill) before reaching a `queue.put`, otherwise the report of running
the function (`(True, result)` or `(False, e)`). -/
def workerQueue {E V : Type} (funcResult : Except E V) (killedBeforeReport : Bool) :
    Option (Except E V) :=
  if killedBeforeReport then none else some funcResult

/-- The caller side of `run_with_limits` (commons.py lines 116–130):
`proc.join(timeout_seconds)`; if `proc.is_alive()` raise `TimeoutError`;
else if `queue.empty()` raise `MemoryError`; else return / re-raise the
queued report. -/
def run_with_limits {E V : Type} (aliveAfterJoin : Bool) (queue : Option (Except E V)) :
    RunOutcome E V :=
  if aliveAfterJoin then .timedOut
  else
    match queue with
    | none => .resourceExhausted
    | some (.ok v) => .success v
    | some (.error e) => .failed e

/-! ## Claim C1 -/

/-- C1. Every invocation of `run_with_limits` ends in exactly one of the four
outcomes, and the outcome is determined as the spec states: a worker that is
still alive when the join times out surfaces `TimedOut`; a worker that exited
without ever reporting (and no timeout fired) surfaces `ResourceExhausted`;
a worker whose function returned `v` surfaces `Success v`; a worker whose
function raised `e` surfaces `Failed e`.  Each "iff" both pins the outcome of
its scenario and excludes the other three, and `run_with_limits` is a total
function of the observations, so the caller always receives an answer. -/
theorem run_with_limits_four_outcomes {E V : Type} (funcResult : Except E V)
    (aliveAfterJoin killedBeforeReport : Bool) :
    (run_with_limits aliveAfterJoin (workerQueue funcResult killedBeforeReport) =
        RunOutcome.timedOut ↔ aliveAfterJoin = true) ∧
    (run_with_limits aliveAfterJoin (workerQueue funcResult killedBeforeReport) =
        RunOutcome.resourceExhausted ↔
        (aliveAfterJoin = false ∧ killedBeforeReport = true)) ∧
    (∀ v : V, run_with_limits aliveAfterJoin (workerQueue funcResult killedBeforeReport) =
        RunOutcome.success v ↔
        (aliveAfterJoin = false ∧ killedBeforeReport = false ∧ funcResult = .ok v)) ∧
    (∀ e : E, run_with_limits aliveAfterJoin (workerQueue funcResult killedBeforeReport) =
        RunOutcome.failed e ↔
        (aliveAfterJoin = false ∧ killedBeforeReport = false ∧ funcResult = .error e)) := by
  cases aliveAfterJoin <;> cases killedBeforeReport <;>
    cases funcResult <;>
    simp [run_with_limits, workerQueue]

/-! ## JSON values

`json.loads` on an aggregation payload yields a Python dict.  We model such a
dict as an association list of string keys to values, and `json.loads` itself
(an external library call that raises on malformed input) as an abstract
`String → Except String JsonObj` argument. -/

/-- A JSON value as far as the aggregation pipeline inspects one. -/
inductive JsonVal where
  | str (s : String)
  | num (n : Int)
  deriving DecidableEq, Repr

/-- A parsed JSON object (Python dict): association list, key order preserved. -/
abbrev JsonObj := List (String × JsonVal)

/-! ## Aggregation directive parsing (server/src/aggregators/init module)

```
if aggr_argument_string in [None, ""]: return \x7b\x7d
if "|" not in aggr_argument_string: return \x7b\x7d
aggr_args = aggr_argument_string.split("|")
if len(aggr_args) != 2: return \x7b\x7d
return json.loads("|".join(aggr_args[1:]))
```
(identical in src/motif_results_aggregators.py). -/

/-- Python `c in s` on a one-character needle: scan the characters. -/
def pyContains (s : String) (c : Char) : Bool :=
  s.data.any (fun x => x == c)

/-- Python `s.split(sep)` for a one-character separator, on char lists:
always at least one (possibly empty) segment; a separator ends the current
segment and starts a new one. -/
def splitOnChar (c : Char) : List Char → List (List Char)
  | [] => [[]]
  | x :: xs =>
    match splitOnChar c xs with
    | [] => [[]]
    | y :: ys => if x == c then [] :: y :: ys else (x :: y) :: ys

/-- Python `s.split(sep)` for a one-character separator. -/
def pySplit (s : String) (c : Char) : List String :=
  (splitOnChar c s.data).map String.mk

/-- Python `sep.join(parts)` for a one-character separator, on char lists. -/
def joinWithChar (c : Char) : List (List Char) → List Char
  | [] => []
  | [x] => x
  | x :: xs => x ++ c :: joinWithChar c xs

/-- Python `sep.join(parts)` for a one-character separator. -/
def pyJoin (c : Char) (parts : List String) : String :=
  String.mk (joinWithChar c (parts.map String.data))

/-- The characters Python `str.strip()` removes (ASCII whitespace; the other
Unicode whitespace Python also strips never occurs in an aggregation kind). -/
def isPySpace (ch : Char) : Bool :=
  ch == ' ' || ch == '\t' || ch == '\n' || ch == '\r' || ch == '\x0b' || ch == '\x0c'

/-- Python `s.strip()`. -/
def pyStrip (s : String) : String :=
  String.mk (((s.data.dropWhile isPySpace).reverse.dropWhile isPySpace).reverse)

/-- `MotifAggregation.parse_aggregation_args`.  `jsonParse` stands for
`json.loads`; a `.error` return models the `json.JSONDecodeError` it raises. -/
def parse_aggregation_args (jsonParse : String → Except String JsonObj)
    (aggr_argument_string : String) : Except String JsonObj :=
  if aggr_argument_string = "" then .ok []
  else if ¬ pyContains aggr_argument_string '|' then .ok []
  else
    let aggr_args := pySplit aggr_argument_string '|'
    if aggr_args.length ≠ 2 then .ok []
    else jsonParse (pyJoin '|' (aggr_args.drop 1))

/-! ## Aggregator selection (server/src/aggregators/init module) -/

/-- The aggregator classes `get_aggregator` can return:
`MotifResultsAggregator` (identity), `MotifResultsHostVertexCountAggregator`,
`MotifResultsMotifVertexCountAggregator`, `MotifResultsSampleAggregator`. -/
inductive AggregatorKind where
  | identity
  | hostVertex
  | motifVertex
  | sample
  deriving DecidableEq, Repr

/-- The kind string `get_aggregator` dispatches on: when the directive contains
a `|`, the segment before the first `|`, stripped (`split("|")[0].strip()`);
otherwise the directive itself, unstripped. -/
def aggregationKind (aggregator_string : String) : String :=
  if pyContains aggregator_string '|'
  then pyStrip ((pySplit aggregator_string '|').headD "")
  else aggregator_string

/-- `MotifAggregation.get_aggregator`: dispatch on the kind string; `none`
models the Python `return None` for an unrecognized kind. -/
def get_aggregator (aggregator_string : String) : Option AggregatorKind :=
  let s := aggregationKind aggregator_string
  if s = "" then some .identity
  else if s = "host.vertex" then some .hostVertex
  else if s = "motif.vertex" then some .motifVertex
  else if s = "sample" then some .sample
  else none

/-! ## Aggregators

A raw motif-search result is a list of matches; each match is a dict mapping
motif-vertex ids to host-vertex ids, modelled as an association list in dict
iteration order. -/

/-- One match: `motif_vertex_id -> host_vertex_id` bindings. -/
abbrev MotifMatch := List (String × String)

/-- `random.sample(population, k)` (Python stdlib, external to the repo):
raises `ValueError` when `k` is negative or exceeds the population size,
otherwise returns `k` distinct elements chosen uniformly without replacement.
The randomness is made explicit: `σ` is the uniformly random permutation of
the population the sampler draws from, and the sample is its first `k`
elements — the support of outcomes is exactly the same. -/
def random_sample {α : Type} (population : List α) (k : Int) (σ : List α) :
    Except String (List α) :=
  if k < 0 ∨ (population.length : Int) < k then
    .error "Sample larger than population or is negative"
  else .ok (σ.take k.toNat)

/-- `MotifResultsSampleAggregator.__init__`: `self._limit = kwargs.get("limit", 1)`. -/
def sampleLimit (kwargs : JsonObj) : JsonVal :=
  (kwargs.lookup "limit").getD (JsonVal.num 1)

/-- `MotifResultsSampleAggregator.aggregate`: `random.sample(results, self._limit)`.
A non-integer `limit` value makes `random.sample` raise a `TypeError`. -/
def sampleAggregate {α : Type} (kwargs : JsonObj) (results σ : List α) :
    Except String (List α) :=
  match sampleLimit kwargs with
  | JsonVal.num k => random_sample results k σ
  | JsonVal.str _ => .error "TypeError: limit must be an integer"

/-- One `host_verts[host_vertex_id][motif_vertex_id] += 1` step (with the two
`setdefault` calls) of `MotifResultsHostVertexCountAggregator.aggregate`.
The nested dicts are modelled by their count function; an absent key is a
zero count (inner counts in the Python dict are always ≥ 1 once the key is
present, so equality of count functions coincides with dict equality). -/
def bumpCount (m : String → String → ℕ) (outerKey innerKey : String) :
    String → String → ℕ :=
  fun a b => if a = outerKey ∧ b = innerKey then m a b + 1 else m a b

/-- The inner loop of `MotifResultsHostVertexCountAggregator.aggregate`:
`for motif_vertex_id, host_vertex_id in motif_mapping.items()`, counting the
host vertex as the outer key. -/
def hostVertexAggMatch (acc : String → String → ℕ) (motif_mapping : MotifMatch) :
    String → String → ℕ :=
  motif_mapping.foldl (fun m p => bumpCount m p.2 p.1) acc

/-- `MotifResultsHostVertexCountAggregator.aggregate`
(src/aggregators/vertex_count.py): `hostVertexId -> (motifVertexId -> count)`. -/
def hostVertexCount (results : List MotifMatch) : String → String → ℕ :=
  results.foldl hostVertexAggMatch (fun _ _ => 0)

/-- The inner loop of `MotifResultsMotifVertexCountAggregator.aggregate`,
counting the motif vertex as the outer key. -/
def motifVertexAggMatch (acc : String → String → ℕ) (motif_mapping : MotifMatch) :
    String → String → ℕ :=
  motif_mapping.foldl (fun m p => bumpCount m p.1 p.2) acc

/-- `MotifResultsMotifVertexCountAggregator.aggregate`: the transpose grouping,
`motifVertexId -> (hostVertexId -> count)`. -/
def motifVertexCount (results : List MotifMatch) : String → String → ℕ :=
  results.foldl motifVertexAggMatch (fun _ _ => 0)

/-! ## `NetworkXHostProvider.get_motifs`
(src/host_provider/host_provider/host_provider.py)

The motif string is assumed already parsed (`Motif(motif_string)` succeeded;
an invalid motif raises `ValueError` before any of the modelled code runs).
`GrandIsoExecutor.find` (external isomorphism engine) is abstracted as a
function of the limit argument it is called with; the graph and motif are
fixed inside it. -/

/-- The aggregated shapes `get_motifs` can return
(`PossibleMotifResultTypes` in models.py). -/
inductive PossibleMotifResultTypes where
  | raw (l : List MotifMatch)
  | hostGrouped (g : String → String → ℕ)
  | motifGrouped (g : String → String → ℕ)

/-- `aggregator(**parsed_agg_args).aggregate(results)` for each aggregator
class.  `σ` is the random permutation consumed when the aggregator samples. -/
def applyAggregator (kind : AggregatorKind) (kwargs : JsonObj) (σ : List MotifMatch)
    (results : List MotifMatch) : Except String PossibleMotifResultTypes :=
  match kind with
  | .identity => .ok (.raw results)
  | .hostVertex => .ok (.hostGrouped (hostVertexCount results))
  | .motifVertex => .ok (.motifGrouped (motifVertexCount results))
  | .sample => (sampleAggregate kwargs results σ).map .raw

/-- `NetworkXHostProvider.get_motifs` after motif parsing: parse the
aggregation args (a malformed JSON payload propagates as an error), select
the aggregator, fail fast with `ValueError` if it is unrecognized, run
`executor.find(motif, limit=parsed_agg_args.get("limit", None))`, and
aggregate. -/
def get_motifs (jsonParse : String → Except String JsonObj)
    (find : Option JsonVal → List MotifMatch) (σ : List MotifMatch)
    (aggregation_type : String) : Except String PossibleMotifResultTypes := do
  let parsed_agg_args ← parse_aggregation_args jsonParse aggregation_type
  match get_aggregator aggregation_type with
  | none => .error ("Invalid aggregation type: " ++ aggregation_type)
  | some aggregator =>
    let results := find (parsed_agg_args.lookup "limit")
    applyAggregator aggregator parsed_agg_args σ results

/-! ## Host provider router (server/src/host_provider/router.py)

A provider is a capability object; only the methods the verified claims touch
are modelled.  `tag` stands for object identity, so distinct provider
instances can be told apart. -/

/-- A `HostProvider` capability object. -/
structure HostProvider where
  tag : ℕ
  accepts : String → Bool
  get_vertex_count : String → Int
  get_edge_count : String → Int
  get_motif_count : String → String → Except String Int
  get_motifs : String → String → Option String → Except String (List MotifMatch)

/-- `HostProviderID`. -/
abbrev HostProviderID := String

/-- The router's `self._providers`: a Python `dict` (string keys, insertion
order preserved), modelled as an association list. -/
abbrev ProviderTable := List (HostProviderID × HostProvider)

/-- `HostProviderRouter.add_provider`: `self._providers[id] = provider` —
replaces in place when the key exists, appends otherwise (Python dict
`__setitem__` semantics). -/
def add_provider (t : ProviderTable) (id : HostProviderID) (p : HostProvider) :
    ProviderTable :=
  if t.any (fun q => q.1 == id) then
    t.map (fun q => if q.1 = id then (id, p) else q)
  else t ++ [(id, p)]

/-- `HostProviderRouter.provider_for`: scan `self._providers.items()` in
insertion order, return the first provider whose `accepts(uri)` is true,
`None` when there is none. -/
def provider_for (t : ProviderTable) (uri : String) : Option HostProvider :=
  (t.find? (fun q => q.2.accepts uri)).map (fun q => q.2)

/-- `HostProviderRouter.validate_all_hosts` on a list of URIs. -/
def validate_all_hosts (t : ProviderTable) (host_uris : List String) : List Bool :=
  host_uris.map (fun uri => (provider_for t uri).isSome)

/-! ## Global dependency state (server/src/server/commons.py) -/

/-- `HostListing` (models.py); the `provider` and `volumetric_data` metadata
fields are not consulted by any verified claim and are elided. -/
structure HostListing where
  id : String
  uri : String
  name : String
  deriving DecidableEq, Repr

/-- The mutable state of `HostProviderRouterGlobalDep`: the router's provider
table, the public host list, and the unlisted temporary host list.  The query
resource-limit numbers are not consulted by any verified claim and are
elided. -/
structure HostProviderRouterGlobalDep where
  host_provider_router : ProviderTable
  all_hosts : List HostListing
  temporary_hosts : List HostListing

/-- `HostProviderRouterGlobalDep.get_uri_from_id`: scan public hosts first,
then temporary hosts; first id match wins; `None` when absent. -/
def get_uri_from_id (dep : HostProviderRouterGlobalDep) (id : String) : Option String :=
  match dep.all_hosts.find? (fun host => host.id == id) with
  | some host => some host.uri
  | none =>
    match dep.temporary_hosts.find? (fun host => host.id == id) with
    | some host => some host.uri
    | none => none

/-- `HostProviderRouterGlobalDep.add_temporary_host`:
`self.temporary_hosts.append(host)`. -/
def add_temporary_host (dep : HostProviderRouterGlobalDep) (host : HostListing) :
    HostProviderRouterGlobalDep :=
  { dep with temporary_hosts := dep.temporary_hosts ++ [host] }

/-- The loop of `remove_temporary_host`: walk the list, delete the first
entry whose id matches and report `True`, else report `False`. -/
def removeFirstById (l : List HostListing) (host_id : String) :
    List HostListing × Bool :=
  match l with
  | [] => ([], false)
  | host :: rest =>
    if host.id = host_id then (rest, true)
    else
      let (rest', found) := removeFirstById rest host_id
      (host :: rest', found)

/-- `HostProviderRouterGlobalDep.remove_temporary_host`: returns the new
state and the `bool` result. -/
def remove_temporary_host (dep : HostProviderRouterGlobalDep) (host_id : String) :
    HostProviderRouterGlobalDep × Bool :=
  let (rest, found) := removeFirstById dep.temporary_hosts host_id
  ({ dep with temporary_hosts := rest }, found)

/-! ## Query endpoint handlers (server/src/server/routers/queries.py)

Each handler is modelled together with the trace of provider operations it
executes, each marked as run inside the bounded worker (`run_with_limits`)
or directly on the serving task.  A handler returning `.error` models a
raised `HTTPException`; the timing / echo fields of the response schemas are
elided.  The `query_type == "cypher"` branches of the motif endpoints are
not modelled (they use the same bounded-execution pattern). -/

/-- A provider operation executed by a handler, with how it was executed. -/
inductive ExtCall where
  | boundedCall (op : String)
  | directCall (op : String)
  deriving DecidableEq, Repr

/-- The caller side of `run_with_limits` as its users see it: the payload on
success, and the `TimeoutError` / `MemoryError` / re-raised function error
as exceptions (`.error`).  The messages carry the configured limits in the
source; the numbers are elided here. -/
def run_with_limits_exc {V : Type} (aliveAfterJoin : Bool)
    (queue : Option (Except String V)) : Except String V :=
  match run_with_limits aliveAfterJoin queue with
  | .success v => .ok v
  | .failed e => .error e
  | .timedOut => .error "Query exceeded time limit"
  | .resourceExhausted => .error "Query exceeded memory limit"

/-- `query_count_vertices` (queries.py lines 133–160): resolve the host id
and provider, then `count = provider.get_vertex_count(uri)` — a direct call
on the serving task, not wrapped in `run_with_limits`. -/
def query_count_vertices (dep : HostProviderRouterGlobalDep) (host_id : String) :
    Except String Int × List ExtCall :=
  match get_uri_from_id dep host_id with
  | none => (.error ("No host found with ID " ++ host_id), [])
  | some uri =>
    match provider_for dep.host_provider_router uri with
    | none => (.error ("No provider found for host " ++ host_id), [])
    | some provider =>
      (.ok (provider.get_vertex_count uri), [.directCall "get_vertex_count"])

/-- `query_count_edges` (queries.py lines 193–220): same shape;
`count = provider.get_edge_count(uri)` is likewise a direct call. -/
def query_count_edges (dep : HostProviderRouterGlobalDep) (host_id : String) :
    Except String Int × List ExtCall :=
  match get_uri_from_id dep host_id with
  | none => (.error ("No host found with ID " ++ host_id), [])
  | some uri =>
    match provider_for dep.host_provider_router uri with
    | none => (.error ("No provider found for host " ++ host_id), [])
    | some provider =>
      (.ok (provider.get_edge_count uri), [.directCall "get_edge_count"])

/-- `MotifCountQueryResponse` (models.py), error-relevant fields only. -/
structure MotifCountQueryResponse where
  motif_count : Int
  motif_entities : List String
  error : Option String
  deriving DecidableEq, Repr

/-- `query_count_motifs` (queries.py lines 253–352), DotMotif branch: the
provider's `get_motif_count` runs inside `run_with_limits`; any exception in
the `try` block (timeout, memory kill, provider error, motif re-parse error)
is caught and turned into a `-1` / empty / error-message response.
`motifEntities` models `Motif(query).to_nx().nodes()` (external dotmotif,
may raise); `aliveAfterJoin` / `killedBeforeReport` are the worker
observations of the bounded call. -/
def query_count_motifs (dep : HostProviderRouterGlobalDep) (host_id query : String)
    (motifEntities : Except String (List String))
    (aliveAfterJoin killedBeforeReport : Bool) :
    Except String MotifCountQueryResponse × List ExtCall :=
  match get_uri_from_id dep host_id with
  | none => (.error ("No host found with ID " ++ host_id), [])
  | some uri =>
    match provider_for dep.host_provider_router uri with
    | none => (.error ("No provider found for host " ++ host_id), [])
    | some provider =>
      let body : Except String MotifCountQueryResponse := do
        let count ← run_with_limits_exc aliveAfterJoin
          (workerQueue (provider.get_motif_count uri query) killedBeforeReport)
        let ents ← motifEntities
        return ⟨count, ents, none⟩
      match body with
      | .ok resp => (.ok resp, [.boundedCall "get_motif_count"])
      | .error e => (.ok ⟨-1, [], some e⟩, [.boundedCall "get_motif_count"])

/-- `MotifQueryResponse` (models.py), error-relevant fields only. -/
structure MotifQueryResponse where
  motif_count : Int
  motif_results : List MotifMatch
  motif_entities : List String
  error : Option String
  deriving DecidableEq, Repr

/-- `query_motifs` (queries.py lines 414–551), DotMotif branch:
`Motif(query)` is parsed inside the `try` block, then the provider's
`get_motifs` runs inside `run_with_limits`; `count = len(results)`; any
exception yields the `-1` / empty-results / error-message response. -/
def query_motifs (dep : HostProviderRouterGlobalDep) (host_id query : String)
    (aggregation_type : Option String) (motifEntities : Except String (List String))
    (aliveAfterJoin killedBeforeReport : Bool) :
    Except String MotifQueryResponse × List ExtCall :=
  match get_uri_from_id dep host_id with
  | none => (.error ("No host found with ID " ++ host_id), [])
  | some uri =>
    match provider_for dep.host_provider_router uri with
    | none => (.error ("No provider found for host " ++ host_id), [])
    | some provider =>
      let body : Except String MotifQueryResponse := do
        let ents ← motifEntities
        let results ← run_with_limits_exc aliveAfterJoin
          (workerQueue (provider.get_motifs uri query aggregation_type)
            killedBeforeReport)
        return ⟨results.length, results, ents, none⟩
      match body with
      | .ok resp => (.ok resp, [.boundedCall "get_motifs"])
      | .error e => (.ok ⟨-1, [], [], some e⟩, [.boundedCall "get_motifs"])

/-! ## Theorems -/

/-- A `json.loads` stand-in that parses any payload to `{"a": "b|c"}`; in
particular it would succeed on the rejoined payload of the directive below. -/
def jsonParseCex : String → Except String JsonObj :=
  fun _ => .ok [("a", JsonVal.str "b|c")]

/-- C2 (counterexample).  The directive `sample | {"a": "b|c"}` has a JSON
payload containing `|`, so `split("|")` yields three segments; the claim says
the segments after the first `|` are rejoined and parsed as JSON, but
`parse_aggregation_args` hits the `len(aggr_args) != 2` guard and silently
returns `{}` — the JSON parser (which would succeed on the rejoined payload)
is never invoked, and the result differs from the parsed payload. -/
theorem parse_aggregation_args_multi_pipe_cex :
    parse_aggregation_args jsonParseCex "sample | \x7b\"a\": \"b|c\"\x7d" = .ok [] ∧
    jsonParseCex " \x7b\"a\": \"b|c\"\x7d" = .ok [("a", JsonVal.str "b|c")] ∧
    (Except.ok ([] : JsonObj) : Except String JsonObj) ≠
      .ok [("a", JsonVal.str "b|c")] := by
  refine ⟨by rfl, by rfl, by simp⟩

/-- C2 (amended).  `parse_aggregation_args` splits on `|`.  Only when the
split yields exactly two segments (exactly one `|` in the directive) is the
right-hand segment parsed as a single JSON object, with a malformed payload a
hard parse error surfaced to the caller (the equation propagates whatever
`jsonParse` returns, including errors).  When the split yields any other
number of segments — in particular when the JSON payload itself contains
`|` — the function silently returns empty args and the payload is never
parsed; likewise for a directive without `|`. -/
theorem parse_aggregation_args_amended (jsonParse : String → Except String JsonObj)
    (s : String) :
    (pyContains s '|' = true → (pySplit s '|').length = 2 →
      parse_aggregation_args jsonParse s = jsonParse ((pySplit s '|').getD 1 "")) ∧
    ((pySplit s '|').length ≠ 2 → parse_aggregation_args jsonParse s = .ok []) ∧
    (pyContains s '|' = false → parse_aggregation_args jsonParse s = .ok []) := by
  refine ⟨fun h0 h2 => ?_, fun h2 => ?_, fun h0 => ?_⟩
  · have hne : s ≠ "" := by
      rintro rfl
      exact absurd h0 (by decide)
    obtain ⟨a, b, hab⟩ := List.length_eq_two.mp h2
    simp only [parse_aggregation_args, if_neg hne, h0, not_true_eq_false,
      if_false, hab]
    rfl
  · by_cases hne : s = ""
    · subst hne; rfl
    · by_cases h0 : pyContains s '|' = true
      · simp [parse_aggregation_args, hne, h0, h2]
      · simp [parse_aggregation_args, hne, h0]
  · by_cases hne : s = ""
    · subst hne; rfl
    · simp [parse_aggregation_args, hne, h0]

/-- C2 (witness for the amended theorem): a directive with exactly one `|`
parses its JSON payload — here the payload parses to `{"a": "b|c"}`. -/
theorem parse_aggregation_args_amended_witness :
    parse_aggregation_args jsonParseCex "sample | \x7b\"limit\": 2\x7d" =
      .ok [("a", JsonVal.str "b|c")] := by
  have h := (parse_aggregation_args_amended jsonParseCex
    "sample | \x7b\"limit\": 2\x7d").1 (by decide) (by decide)
  rw [h]
  rfl

/-- A provider whose `accepts` is true on every URI (test double). -/
def acceptAllProvider (tag : ℕ) : HostProvider :=
  ⟨tag, fun _ => true, fun _ => 7, fun _ => 3, fun _ _ => .ok 12, fun _ _ _ => .ok []⟩

/-- A provider whose `accepts` is false on every URI (test double). -/
def rejectAllProvider (tag : ℕ) : HostProvider :=
  ⟨tag, fun _ => false, fun _ => 0, fun _ => 0, fun _ _ => .ok 0, fun _ _ _ => .ok []⟩

/-- C4.  `provider_for` scans the provider table in insertion order and
returns the first accepting provider: (a) after registering `P1` and then
`P2` with `add_provider` under fresh distinct ids onto a table none of whose
providers accepts `uri`, `provider_for uri` is `P1` whenever `P1` accepts
`uri` — regardless of `P2` (in particular when both accept, the
earlier-registered `P1` shadows `P2`); (b) in any table of the shape
`pre ++ [P1] ++ mid ++ [P2] ++ post` where nothing in `pre` accepts and `P1`
accepts, the scan returns `P1`; (c) `provider_for` returns `none` exactly
when no provider in the table accepts.  `provider_for` is a pure function of
the table and the URI, so repeated calls without mutation agree. -/
theorem provider_for_shadowing (t pre mid post : ProviderTable)
    (i1 i2 : HostProviderID) (P1 P2 : HostProvider) (uri : String)
    (hpre : ∀ q ∈ pre, q.2.accepts uri = false)
    (ht : ∀ q ∈ t, q.2.accepts uri = false)
    (hfresh1 : ∀ q ∈ t, q.1 ≠ i1) (hfresh2 : ∀ q ∈ t, q.1 ≠ i2)
    (hne : i1 ≠ i2)
    (h1 : P1.accepts uri = true) :
    provider_for (add_provider (add_provider t i1 P1) i2 P2) uri = some P1 ∧
    provider_for (pre ++ (i1, P1) :: mid ++ (i2, P2) :: post) uri = some P1 ∧
    (∀ t' : ProviderTable,
      provider_for t' uri = none ↔ ∀ q ∈ t', q.2.accepts uri = false) := by
  have hfind : ∀ u : ProviderTable, (∀ q ∈ u, q.2.accepts uri = false) →
      ∀ v : ProviderTable, provider_for (u ++ v) uri = provider_for v uri := by
    intro u hu v
    induction u with
    | nil => rfl
    | cons q rest ih =>
      have hq : (q.2.accepts uri) = false := hu q (by simp)
      simp only [List.cons_append, provider_for, List.find?_cons_of_neg, hq,
        Bool.false_eq_true, not_false_eq_true]
      exact ih fun x hx => hu x (by simp [hx])
  have hseg : ∀ u : ProviderTable, (∀ q ∈ u, q.2.accepts uri = false) →
      ∀ v : ProviderTable, provider_for (u ++ (i1, P1) :: v) uri = some P1 := by
    intro u hu v
    rw [hfind u hu]
    simp only [provider_for, List.find?_cons_of_pos, h1]
    rfl
  refine ⟨?_, ?_, ?_⟩
  · have hadd1 : add_provider t i1 P1 = t ++ [(i1, P1)] := by
      have : t.any (fun q => q.1 == i1) = false := by
        simp only [List.any_eq_false]
        intro q hq
        simpa using hfresh1 q hq
      simp [add_provider, this]
    have hadd2 : add_provider (t ++ [(i1, P1)]) i2 P2 = t ++ [(i1, P1), (i2, P2)] := by
      have : (t ++ [(i1, P1)]).any (fun q => q.1 == i2) = false := by
        simp only [List.any_eq_false]
        intro q hq
        rcases List.mem_append.mp hq with hq | hq
        · simpa using hfresh2 q hq
        · simp at hq
          simp [hq, hne]
      simp [add_provider, this]
    rw [hadd1, hadd2]
    exact hseg t ht [(i2, P2)]
  · simpa using hseg pre hpre (mid ++ (i2, P2) :: post)
  · intro t'
    simp [provider_for, List.find?_eq_none]

/-- C4 (witness): a shadowed two-provider router built with `add_provider` on
top of a non-accepting provider resolves to the earlier-registered accepting
provider. -/
theorem provider_for_shadowing_witness :
    provider_for
      (add_provider (add_provider [("p0", rejectAllProvider 0)] "p1" (acceptAllProvider 1))
        "p2" (acceptAllProvider 2)) "file:///g.graphml" = some (acceptAllProvider 1) :=
  (provider_for_shadowing [("p0", rejectAllProvider 0)] [] [] []
    "p1" "p2" (acceptAllProvider 1) (acceptAllProvider 2) "file:///g.graphml"
    (by intro q hq; simp at hq)
    (by intro q hq; simp at hq; subst hq; rfl)
    (by intro q hq; simp at hq; subst hq; decide)
    (by intro q hq; simp at hq; subst hq; decide)
    (by decide) (by rfl)).1

/-- `removeFirstById` deletes the first matching entry and reports whether
any entry matched. -/
theorem removeFirstById_eq (l : List HostListing) (host_id : String) :
    removeFirstById l host_id =
      (l.eraseP (fun x => x.id == host_id), l.any (fun x => x.id == host_id)) := by
  induction l with
  | nil => rfl
  | cons h t ih =>
    by_cases hh : h.id = host_id
    · simp [removeFirstById, hh, List.eraseP_cons]
    · simp [removeFirstById, hh, List.eraseP_cons, ih]

/-- C10.  `add_temporary_host` and `remove_temporary_host` mutate only the
temporary-hosts collection: the public host list (and the provider table) are
unchanged; `add_temporary_host` appends; `remove_temporary_host` returns
`True` iff a temporary host with the given id exists, in which case exactly
the first matching entry is deleted (`eraseP`), and returns `False` with the
state unchanged otherwise. -/
theorem temporary_host_mutation (dep : HostProviderRouterGlobalDep)
    (host : HostListing) (host_id : String) :
    (add_temporary_host dep host).all_hosts = dep.all_hosts ∧
    (add_temporary_host dep host).host_provider_router = dep.host_provider_router ∧
    (add_temporary_host dep host).temporary_hosts = dep.temporary_hosts ++ [host] ∧
    (remove_temporary_host dep host_id).1.all_hosts = dep.all_hosts ∧
    (remove_temporary_host dep host_id).1.host_provider_router = dep.host_provider_router ∧
    ((remove_temporary_host dep host_id).2 = true ↔
      ∃ x ∈ dep.temporary_hosts, x.id = host_id) ∧
    (remove_temporary_host dep host_id).1.temporary_hosts =
      dep.temporary_hosts.eraseP (fun x => x.id == host_id) ∧
    ((remove_temporary_host dep host_id).2 = false →
      (remove_temporary_host dep host_id).1 = dep) := by
  refine ⟨rfl, rfl, rfl, rfl, rfl, ?_, ?_, ?_⟩
  · simp [remove_temporary_host, removeFirstById_eq, List.any_eq_true]
  · simp [remove_temporary_host, removeFirstById_eq]
  · intro hfalse
    simp only [remove_temporary_host, removeFirstById_eq] at hfalse ⊢
    have : dep.temporary_hosts.eraseP (fun x => x.id == host_id) =
        dep.temporary_hosts := by
      apply List.eraseP_of_forall_not
      intro a ha
      have := (List.any_eq_false).mp hfalse a ha
      simpa using this
    rw [this]

/-- Binding a successful `Except` computation continues with its payload. -/
theorem except_bind_ok {E A B : Type} (a : A) (f : A → Except E B) :
    (Except.ok a : Except E A) >>= f = f a := rfl

/-- Binding a failed `Except` computation propagates the error. -/
theorem except_bind_error {E A B : Type} (e : E) (f : A → Except E B) :
    (Except.error e : Except E A) >>= f = .error e := rfl

/-- One match's worth of bumps, expressed as a count: folding the bindings of
`mm` into `acc` adds, at each cell `(h, mv)`, the number of bindings of `mm`
whose host vertex is `h` and motif vertex is `mv`. -/
theorem hostVertexAggMatch_apply (acc : String → String → ℕ) (mm : MotifMatch)
    (h mv : String) :
    hostVertexAggMatch acc mm h mv =
      acc h mv + mm.countP (fun p => decide (h = p.2 ∧ mv = p.1)) := by
  induction mm generalizing acc with
  | nil => rfl
  | cons p rest ih =>
    show hostVertexAggMatch (bumpCount acc p.2 p.1) rest h mv = _
    rw [ih, List.countP_cons]
    by_cases hc : h = p.2 ∧ mv = p.1
    · simp only [bumpCount, if_pos hc]
      simp [hc]
      omega
    · simp only [bumpCount, if_neg hc]
      simp [hc]

/-- Folding any tail of matches onto an accumulator adds the per-match
binding counts cell-wise. -/
theorem hostVertexCount_foldl (results : List MotifMatch)
    (acc : String → String → ℕ) (h mv : String) :
    (results.foldl hostVertexAggMatch acc) h mv =
      acc h mv +
        (results.map (fun mm => mm.countP (fun p => decide (h = p.2 ∧ mv = p.1)))).sum := by
  induction results generalizing acc with
  | nil => simp
  | cons mm rest ih =>
    simp only [List.foldl_cons, List.map_cons, List.sum_cons, ih,
      hostVertexAggMatch_apply]
    omega

/-- C7.  The host-vertex grouping aggregator is a pure function of the
multiset of matches: each cell `hostVertexCount results h mv` equals the
number of (match, binding) pairs in which host vertex `h` played motif-vertex
role `mv`, and permuting the input match list therefore yields an identical
grouped-count map. -/
theorem host_vertex_count_perm_invariant (results results' : List MotifMatch)
    (hperm : results.Perm results') :
    hostVertexCount results = hostVertexCount results' ∧
    ∀ h mv, hostVertexCount results h mv =
      (results.map (fun mm => mm.countP (fun p => decide (h = p.2 ∧ mv = p.1)))).sum := by
  have happ : ∀ (rs : List MotifMatch) (h mv : String), hostVertexCount rs h mv =
      (rs.map (fun mm => mm.countP (fun p => decide (h = p.2 ∧ mv = p.1)))).sum := by
    intro rs h mv
    have := hostVertexCount_foldl rs (fun _ _ => 0) h mv
    simpa [hostVertexCount] using this
  refine ⟨?_, happ results⟩
  funext h mv
  rw [happ, happ]
  exact List.Perm.sum_eq (hperm.map _)

/-- C7 (witness): permuting a concrete two-element match list leaves the
grouped-count map unchanged. -/
theorem host_vertex_count_perm_invariant_witness :
    hostVertexCount [[("A", "x")], [("B", "y")]] =
      hostVertexCount [[("B", "y")], [("A", "x")]] :=
  (host_vertex_count_perm_invariant [[("A", "x")], [("B", "y")]]
    [[("B", "y")], [("A", "x")]] (by decide)).1

/-- C6.  The sample aggregator: with `limit` equal to the input length `N`,
every random outcome returns all `N` elements exactly once (the output is a
permutation of the input — no duplication, no omission); with `limit` greater
than `N` it raises `ValueError` rather than truncating; and an absent `limit`
key defaults to `1`. -/
theorem sample_aggregator_spec {α : Type} (results σ : List α) (L : Int)
    (hσ : σ.Perm results) :
    (sampleAggregate [("limit", JsonVal.num results.length)] results σ = .ok σ ∧
      σ.Perm results) ∧
    ((results.length : Int) < L →
      sampleAggregate [("limit", JsonVal.num L)] results σ =
        .error "Sample larger than population or is negative") ∧
    (∀ kwargs : JsonObj, kwargs.lookup "limit" = none →
      sampleLimit kwargs = JsonVal.num 1) := by
  have hsl : ∀ v : JsonVal, sampleLimit [("limit", v)] = v := by
    intro v
    simp [sampleLimit, List.lookup]
  refine ⟨⟨?_, hσ⟩, fun hL => ?_, fun kwargs hk => ?_⟩
  · have hlen : σ.length = results.length := hσ.length_eq
    simp only [sampleAggregate, hsl, random_sample]
    rw [if_neg]
    · rw [Int.toNat_natCast, ← hlen, List.take_length]
    · push_neg
      refine ⟨by omega, by omega⟩
  · simp only [sampleAggregate, hsl, random_sample]
    rw [if_pos (Or.inr hL)]
  · simp [sampleLimit, hk]

/-- C6 (witness): a three-element input sampled with `limit = 5` errors. -/
theorem sample_aggregator_spec_witness :
    sampleAggregate [("limit", JsonVal.num 5)] [10, 20, 30] [30, 10, 20] =
      .error "Sample larger than population or is negative" :=
  ((sample_aggregator_spec [10, 20, 30] [30, 10, 20] 5 (by decide)).2.1 (by decide))

/-- C5.  A directive whose kind is not one of the recognized names (empty =
identity, `host.vertex`, `motif.vertex`, `motif.vertex.attribute`, `sample`)
selects no aggregator (`get_aggregator` returns `None`), and `get_motifs`
surfaces an error for it — the invalid-aggregation `ValueError` when the args
parse, a parse error otherwise — never a silent fallback to identity. -/
theorem invalid_aggregation_kind_errors (jsonParse : String → Except String JsonObj)
    (find : Option JsonVal → List MotifMatch) (σ : List MotifMatch) (s : String)
    (h : aggregationKind s ∉ (["", "host.vertex", "motif.vertex",
      "motif.vertex.attribute", "sample"] : List String)) :
    get_aggregator s = none ∧
    (∃ e, get_motifs jsonParse find σ s = .error e) ∧
    (∀ args, parse_aggregation_args jsonParse s = .ok args →
      get_motifs jsonParse find σ s = .error ("Invalid aggregation type: " ++ s)) := by
  have hga : get_aggregator s = none := by
    simp only [List.mem_cons, List.not_mem_nil, or_false, not_or] at h
    obtain ⟨h1, h2, h3, _, h5⟩ := h
    simp [get_aggregator, h1, h2, h3, h5]
  refine ⟨hga, ?_, fun args hargs => ?_⟩
  · rcases hp : parse_aggregation_args jsonParse s with e | args
    · exact ⟨e, by simp only [get_motifs, hp, except_bind_error]⟩
    · exact ⟨"Invalid aggregation type: " ++ s,
        by simp only [get_motifs, hp, except_bind_ok, hga]⟩
  · simp only [get_motifs, hargs, except_bind_ok, hga]

/-- C5 (witness): the unrecognized kind `frobnicate` is rejected by
`get_motifs`. -/
theorem invalid_aggregation_kind_errors_witness :
    get_motifs (fun _ => .ok []) (fun _ => []) [] "frobnicate" =
      .error ("Invalid aggregation type: " ++ "frobnicate") :=
  (invalid_aggregation_kind_errors (fun _ => .ok []) (fun _ => []) [] "frobnicate"
    (by decide)).2.2 [] (by rfl)

/-- C9.  `get_motifs` forwards the parsed `limit` argument to the
isomorphism executor's `find` as a pre-limit: when the parsed aggregation
args carry `limit = L`, the raw match list handed to the aggregator is
exactly `find(limit=L)`, which (by the executor's contract `hfind`) contains
at most `L` matches; when no `limit` key is present the search is unbounded
(`find(limit=None)`). -/
theorem get_motifs_prelimit (jsonParse : String → Except String JsonObj)
    (find : Option JsonVal → List MotifMatch) (σ : List MotifMatch) (s : String)
    (args : JsonObj) (k : AggregatorKind) (L : Int)
    (hparse : parse_aggregation_args jsonParse s = .ok args)
    (hagg : get_aggregator s = some k)
    (hfind : ∀ n : Int, 0 ≤ n → ((find (some (JsonVal.num n))).length : Int) ≤ n) :
    (args.lookup "limit" = some (JsonVal.num L) → 0 ≤ L →
      get_motifs jsonParse find σ s =
        applyAggregator k args σ (find (some (JsonVal.num L))) ∧
      ((find (some (JsonVal.num L))).length : Int) ≤ L) ∧
    (args.lookup "limit" = none →
      get_motifs jsonParse find σ s = applyAggregator k args σ (find none)) := by
  constructor
  · intro hl hL
    refine ⟨?_, hfind L hL⟩
    simp only [get_motifs, hparse, except_bind_ok, hagg, hl]
  · intro hl
    simp only [get_motifs, hparse, except_bind_ok, hagg, hl]

/-- C9 (witness): a `sample | {"limit": 2}` directive passes `limit = 2`
through to the executor's `find` call. -/
theorem get_motifs_prelimit_witness :
    get_motifs (fun _ => .ok [("limit", JsonVal.num 2)]) (fun _ => []) []
      "sample | \x7b\"limit\": 2\x7d" =
      applyAggregator AggregatorKind.sample [("limit", JsonVal.num 2)] [] [] :=
  ((get_motifs_prelimit (fun _ => .ok [("limit", JsonVal.num 2)]) (fun _ => [])
      [] "sample | \x7b\"limit\": 2\x7d" [("limit", JsonVal.num 2)]
      AggregatorKind.sample 2 (by rfl) (by rfl)
      (by intro n hn; simpa using hn)).1 (by rfl) (by decide)).1

/-- Whether a recorded provider call ran directly on the serving task. -/
def ExtCall.isDirect : ExtCall → Bool
  | .directCall _ => true
  | .boundedCall _ => false

/-- A one-host, one-provider global state (test double): host `h1` resolves
to a URI the registered provider accepts. -/
def sampleDep : HostProviderRouterGlobalDep :=
  ⟨[("fs", acceptAllProvider 1)], [⟨"h1", "file:///g.graphml", "G"⟩], []⟩

/-- C8.  Once the host and provider resolve, the motif-count and motif-search
handlers always produce a structurally valid response: on any failure inside
the guarded block — timeout (`aliveAfterJoin`), memory kill
(`killedBeforeReport`), a provider error, or a motif re-parse error — the
response carries `motif_count = -1`, an empty entity/result list, and the
error message; on success the error field is absent and the count is the real
one (the provider's count, resp. `len(results)`).  The error field is `none`
exactly when every step succeeded, so a caller can always distinguish zero
matches (`count 0`, no error) from a failed query (`count -1`, error). -/
theorem motif_query_error_envelope (dep : HostProviderRouterGlobalDep)
    (host_id query uri : String) (provider : HostProvider)
    (motifEntities : Except String (List String))
    (aggregation_type : Option String) (alive killed : Bool)
    (hu : get_uri_from_id dep host_id = some uri)
    (hp : provider_for dep.host_provider_router uri = some provider) :
    (∃ resp : MotifCountQueryResponse,
      (query_count_motifs dep host_id query motifEntities alive killed).1 = .ok resp ∧
      (resp.error = none ↔ alive = false ∧ killed = false ∧
        (∃ c, provider.get_motif_count uri query = .ok c) ∧
        (∃ ents, motifEntities = .ok ents)) ∧
      (resp.error ≠ none → resp.motif_count = -1 ∧ resp.motif_entities = []) ∧
      (resp.error = none →
        ∃ c, provider.get_motif_count uri query = .ok c ∧ resp.motif_count = c)) ∧
    (∃ resp : MotifQueryResponse,
      (query_motifs dep host_id query aggregation_type motifEntities alive
        killed).1 = .ok resp ∧
      (resp.error = none ↔ alive = false ∧ killed = false ∧
        (∃ ents, motifEntities = .ok ents) ∧
        (∃ rs, provider.get_motifs uri query aggregation_type = .ok rs)) ∧
      (resp.error ≠ none → resp.motif_count = -1 ∧ resp.motif_results = []) ∧
      (resp.error = none → resp.motif_count = resp.motif_results.length)) := by
  constructor
  · cases alive <;> cases killed <;>
      rcases hgc : provider.get_motif_count uri query with e | c <;>
      rcases hme : motifEntities with e2 | ents <;>
        simp [query_count_motifs, hu, hp, run_with_limits_exc, run_with_limits,
          workerQueue, hgc, hme, except_bind_ok, except_bind_error]
  · cases alive <;> cases killed <;>
      rcases hgm : provider.get_motifs uri query aggregation_type with e | rs <;>
      rcases hme : motifEntities with e2 | ents <;>
        simp [query_motifs, hu, hp, run_with_limits_exc, run_with_limits,
          workerQueue, hgm, hme, except_bind_ok, except_bind_error]

/-- C8 (witness): the motif-count handler on a resolvable host with a
successful bounded execution. -/
theorem motif_query_error_envelope_witness :
    ∃ resp : MotifCountQueryResponse,
      (query_count_motifs sampleDep "h1" "A -> B" (Except.ok ["A", "B"])
        false false).1 = .ok resp ∧
      (resp.error = none ↔ false = false ∧ false = false ∧
        (∃ c, (acceptAllProvider 1).get_motif_count "file:///g.graphml" "A -> B" =
          .ok c) ∧
        (∃ ents, (Except.ok ["A", "B"] : Except String (List String)) = .ok ents)) ∧
      (resp.error ≠ none → resp.motif_count = -1 ∧ resp.motif_entities = []) ∧
      (resp.error = none →
        ∃ c, (acceptAllProvider 1).get_motif_count "file:///g.graphml" "A -> B" =
          .ok c ∧ resp.motif_count = c) :=
  (motif_query_error_envelope sampleDep "h1" "A -> B" "file:///g.graphml"
    (acceptAllProvider 1) (Except.ok ["A", "B"]) none false false
    (by rfl) (by rfl)).1

/-- C3 (counterexample).  On a state whose single host resolves to an
accepting provider, the vertex-count handler performs its provider operation
as a direct call on the serving task — its call trace is exactly one
`directCall`, not a `boundedCall` through `run_with_limits` — and likewise
the edge-count handler, refuting "the vertex-count and edge-count endpoints
invoke the provider operation only through the bounded executor". -/
theorem vertex_count_direct_call_cex :
    (query_count_vertices sampleDep "h1").1 = .ok 7 ∧
    (query_count_vertices sampleDep "h1").2 = [ExtCall.directCall "get_vertex_count"] ∧
    ((query_count_vertices sampleDep "h1").2.all (fun c => c.isDirect)) = true ∧
    (query_count_edges sampleDep "h1").2 = [ExtCall.directCall "get_edge_count"] ∧
    ((query_count_edges sampleDep "h1").2.all (fun c => c.isDirect)) = true ∧
    ExtCall.isDirect (ExtCall.directCall "get_vertex_count") ≠
      ExtCall.isDirect (ExtCall.boundedCall "get_vertex_count") :=
  ⟨rfl, rfl, rfl, rfl, rfl, by decide⟩

/-- C3 (amended).  The motif-count and motif-search handlers execute their
provider operations only inside the bounded executor (every call they trace
is a `boundedCall` through `run_with_limits`), but the vertex-count and
edge-count handlers execute their provider operation directly on the serving
task (every call they trace is a `directCall`). -/
theorem bounded_execution_split (dep : HostProviderRouterGlobalDep)
    (host_id query : String) (motifEntities : Except String (List String))
    (aggregation_type : Option String) (alive killed : Bool) :
    (∀ c ∈ (query_count_motifs dep host_id query motifEntities alive killed).2,
      c.isDirect = false) ∧
    (∀ c ∈ (query_motifs dep host_id query aggregation_type motifEntities alive
      killed).2, c.isDirect = false) ∧
    (∀ c ∈ (query_count_vertices dep host_id).2, c.isDirect = true) ∧
    (∀ c ∈ (query_count_edges dep host_id).2, c.isDirect = true) := by
  refine ⟨?_, ?_, ?_, ?_⟩ <;> intro c hc <;>
    rcases h1 : get_uri_from_id dep host_id with _ | uri
  case _ =>
    simp [query_count_motifs, h1] at hc
  case _ =>
    rcases h2 : provider_for dep.host_provider_router uri with _ | p
    · simp [query_count_motifs, h1, h2] at hc
    · simp only [query_count_motifs, h1, h2] at hc
      rcases hc2 : (do
          let count ← run_with_limits_exc alive
            (workerQueue (p.get_motif_count uri query) killed)
          let ents ← motifEntities
          return (⟨count, ents, none⟩ : MotifCountQueryResponse)) with e | resp <;>
        · rw [hc2] at hc
          simp at hc
          rw [hc]
          rfl
  case _ =>
    simp [query_motifs, h1] at hc
  case _ =>
    rcases h2 : provider_for dep.host_provider_router uri with _ | p
    · simp [query_motifs, h1, h2] at hc
    · simp only [query_motifs, h1, h2] at hc
      rcases hc2 : (do
          let ents ← motifEntities
          let results ← run_with_limits_exc alive
            (workerQueue (p.get_motifs uri query aggregation_type) killed)
          return (⟨results.length, results, ents, none⟩ : MotifQueryResponse)) with e | resp <;>
        · rw [hc2] at hc
          simp at hc
          rw [hc]
          rfl
  case _ =>
    simp [query_count_vertices, h1] at hc
  case _ =>
    rcases h2 : provider_for dep.host_provider_router uri with _ | p
    · simp [query_count_vertices, h1, h2] at hc
    · simp [query_count_vertices, h1, h2] at hc
      rw [hc]
      rfl
  case _ =>
    simp [query_count_edges, h1] at hc
  case _ =>
    rcases h2 : provider_for dep.host_provider_router uri with _ | p
    · simp [query_count_edges, h1, h2] at hc
    · simp [query_count_edges, h1, h2] at hc
      rw [hc]
      rfl

/-- C3 (witness for the amended theorem): on the concrete one-host state, the
motif-count handler's only recorded call is bounded, and the vertex-count
handler's only recorded call is direct. -/
theorem bounded_execution_split_witness :
    ExtCall.isDirect (ExtCall.boundedCall "get_motif_count") = false ∧
    ExtCall.isDirect (ExtCall.directCall "get_vertex_count") = true :=
  ⟨(bounded_execution_split sampleDep "h1" "A -> B" (Except.ok []) none
      false false).1 (ExtCall.boundedCall "get_motif_count") (by decide),
   (bounded_execution_split sampleDep "h1" "A -> B" (Except.ok []) none
      false false).2.2.1 (ExtCall.directCall "get_vertex_count") (by decide)⟩

end Motifstudio
